import Mathlib

/-!
Verification of the Arm semihosting host-I/O layer (`semihost.c` / `semihost.h`)
and the gcov coverage export pipeline (`coverage.c`) of the
gcov-demo-stm32f103 repository.

Modelling conventions (shallow embedding):

* The debug host is an oracle `Host`: `resp cmd args` is the raw value the
  host leaves in registers r0/r1, combined as one 64-bit number
  (truncated `% 2^64` at the transport boundary, as the C `uint64_t`
  return of `ullSemihostReqOp` dictates), and `heapInfo` is the record the
  host writes through the pointer during a SYS_HEAPINFO request.
* Machine integers are `Nat` / `Int` with explicit `% 2^w` truncation at
  every C cast: `(uint32_t)x` on a pointer or unsigned value is `x % 2^32`,
  `(int32_t)` of a 64-bit value is `toInt32`, `(uint32_t)` of an `int32_t`
  is `toUInt32sh`.
* Pointers are `Nat` addresses.  A C string is modelled as a `CStr`
  carrying its address and its `strlen` (the functions call `strlen`
  themselves; the embedding reads it off the `CStr`).
* Every service-layer function returns its C result paired with the list
  of transport requests (`SemiCall`: command number plus the word-sized
  argument block handed to the host) it issued, in order.  For commands
  whose `ulArg` is a direct value rather than a pointer to a block
  (SYS_WRITE0: the string pointer; the no-argument commands: literal 0)
  the block is the singleton of that pointer, resp. the empty list.
-/

/-- C cast `(int32_t)` of an unsigned value: low 32 bits, two's complement. -/
def toInt32 (n : Nat) : Int :=
  let v : Nat := n % 2^32
  if v < 2^31 then (v : Int) else (v : Int) - 2^32

/-- C cast `(uint32_t)` of an `int32_t` value: two's-complement bit pattern. -/
def toUInt32sh (i : Int) : Nat := (i % 2^32).toNat

/-! Semihosting command numbers as defined by Arm (`semihost.c` macros). -/

def SYS_OPEN : Nat := 0x01
def SYS_CLOSE : Nat := 0x02
def SYS_WRITEC : Nat := 0x03
def SYS_WRITE0 : Nat := 0x04
def SYS_WRITE : Nat := 0x05
def SYS_READ : Nat := 0x06
def SYS_READC : Nat := 0x07
def SYS_ISERROR : Nat := 0x08
def SYS_ISTTY : Nat := 0x09
def SYS_SEEK : Nat := 0x0A
def SYS_FLEN : Nat := 0x0C
def SYS_TMPNAM : Nat := 0x0D
def SYS_REMOVE : Nat := 0x0E
def SYS_RENAME : Nat := 0x0F
def SYS_CLOCK : Nat := 0x10
def SYS_TIME : Nat := 0x11
def SYS_SYSTEM : Nat := 0x12
def SYS_ERRNO : Nat := 0x13
def SYS_GET_CMDLINE : Nat := 0x15
def SYS_HEAPINFO : Nat := 0x16
def SYS_ELAPSED : Nat := 0x30
def SYS_TICKFREQ : Nat := 0x31

/-- Default file handles (`semihost.h`): `SEMIHOST_STDIN 0L`. -/
def SEMIHOST_STDIN : Int := 0

/-- Default file handles (`semihost.h`): `SEMIHOST_STDOUT 1L`. -/
def SEMIHOST_STDOUT : Int := 1

/-- Default file handles (`semihost.h`): `SEMIHOST_STDERR 2L`. -/
def SEMIHOST_STDERR : Int := 2

/-- One transport request: the command number and the word-sized argument
block conveyed to the host. -/
structure SemiCall where
  cmd : Nat
  args : List Nat
deriving DecidableEq, Repr

/-- System heap information record (`semihost.h`): four pointer fields,
address 0 models NULL. -/
structure Semihost_HeapInfo where
  pHeapBase : Nat
  pHeapLimit : Nat
  pStackBase : Nat
  pStackLimit : Nat
deriving DecidableEq, Repr

/-- The debug host as an oracle: raw register reply per request, and the
record content it writes during a SYS_HEAPINFO request. -/
structure Host where
  resp : Nat → List Nat → Nat
  heapInfo : Semihost_HeapInfo

/-- A C string argument: its address and its `strlen`. -/
structure CStr where
  addr : Nat
  len : Nat
deriving DecidableEq, Repr

/-- Embedding of `ullSemihostReqOp`: trigger one service call to the debugger; pure
pass-through of the host's two-register reply as one 64-bit value.  The
embedding also records the request it issued. -/
def ullSemihostReqOp (host : Host) (ulCmd : Nat) (ulArg : List Nat) :
    Nat × List SemiCall :=
  (host.resp ulCmd ulArg % 2^64, [⟨ulCmd, ulArg⟩])

/-- Embedding of `vSemihostWriteC`: SYS_WRITEC with block `{ (uint32_t)cChar }`;
result discarded. -/
def vSemihostWriteC (host : Host) (cChar : Nat) : Unit × List SemiCall :=
  let aulArgs := [cChar % 2^8]
  let r := ullSemihostReqOp host SYS_WRITEC aulArgs
  ((), r.2)

/-- Embedding of `vSemihostWrite0`: SYS_WRITE0 with the string pointer passed directly
as `ulArg`; result discarded. -/
def vSemihostWrite0 (host : Host) (pszStr : Nat) : Unit × List SemiCall :=
  let r := ullSemihostReqOp host SYS_WRITE0 [pszStr % 2^32]
  ((), r.2)

/-- Embedding of `cSemihostReadC`: SYS_READC with `ulArg = 0` (no block); result cast
to `char` (low 8 bits). -/
def cSemihostReadC (host : Host) : Nat × List SemiCall :=
  let r := ullSemihostReqOp host SYS_READC []
  (r.1 % 2^8, r.2)

/-- Embedding of `ulSemihostGetCmdline`: SYS_GET_CMDLINE with block
`{ (uint32_t)pBuf, ulSize }`; returns
`((uint32_t)ullResult == 0uL) ? (ullResult >> 32) : 0uL` as `uint32_t`. -/
def ulSemihostGetCmdline (host : Host) (pBuf ulSize : Nat) :
    Nat × List SemiCall :=
  let aulArgs := [pBuf % 2^32, ulSize % 2^32]
  let r := ullSemihostReqOp host SYS_GET_CMDLINE aulArgs
  let ullResult := r.1
  ((if ullResult % 2^32 = 0 then (ullResult >>> 32) % 2^32 else 0), r.2)

/-- Embedding of `lSemihostSystem`: SYS_SYSTEM with block
`{ (uint32_t)pszCmd, (uint32_t)strlen(pszCmd) }`; result cast to int32. -/
def lSemihostSystem (host : Host) (pszCmd : CStr) : Int × List SemiCall :=
  let aulArgs := [pszCmd.addr % 2^32, pszCmd.len % 2^32]
  let r := ullSemihostReqOp host SYS_SYSTEM aulArgs
  (toInt32 r.1, r.2)

/-- Embedding of `lSemihostOpen`: SYS_OPEN with block
`{ (uint32_t)pszPath, ulMode, (uint32_t)strlen(pszPath) }`; result cast to
int32 (-1 on failure). -/
def lSemihostOpen (host : Host) (pszPath : CStr) (ulMode : Nat) :
    Int × List SemiCall :=
  let aulArgs := [pszPath.addr % 2^32, ulMode % 2^32, pszPath.len % 2^32]
  let r := ullSemihostReqOp host SYS_OPEN aulArgs
  (toInt32 r.1, r.2)

/-- Embedding of `bSemihostClose`: SYS_CLOSE with block `{ (uint32_t)lFile }`; success
iff the low 32 bits of the raw result are 0. -/
def bSemihostClose (host : Host) (lFile : Int) : Bool × List SemiCall :=
  let aulArgs := [toUInt32sh lFile]
  let r := ullSemihostReqOp host SYS_CLOSE aulArgs
  (r.1 % 2^32 == 0, r.2)

/-- Embedding of `lSemihostWrite`: SYS_WRITE with block
`{ (uint32_t)lFile, (uint32_t)pData, ulLen }`; result (remaining byte
count) cast to int32. -/
def lSemihostWrite (host : Host) (lFile : Int) (pData ulLen : Nat) :
    Int × List SemiCall :=
  let aulArgs := [toUInt32sh lFile, pData % 2^32, ulLen % 2^32]
  let r := ullSemihostReqOp host SYS_WRITE aulArgs
  (toInt32 r.1, r.2)

/-- Embedding of `lSemihostRead`: SYS_READ with block
`{ (uint32_t)lFile, (uint32_t)pBuf, ulLen }`; result cast to int32. -/
def lSemihostRead (host : Host) (lFile : Int) (pBuf ulLen : Nat) :
    Int × List SemiCall :=
  let aulArgs := [toUInt32sh lFile, pBuf % 2^32, ulLen % 2^32]
  let r := ullSemihostReqOp host SYS_READ aulArgs
  (toInt32 r.1, r.2)

/-- Embedding of `bSemihostSeek`: SYS_SEEK with block `{ (uint32_t)lFile, ulPos }`;
success iff the low 32 bits of the raw result are 0. -/
def bSemihostSeek (host : Host) (lFile : Int) (ulPos : Nat) :
    Bool × List SemiCall :=
  let aulArgs := [toUInt32sh lFile, ulPos % 2^32]
  let r := ullSemihostReqOp host SYS_SEEK aulArgs
  (r.1 % 2^32 == 0, r.2)

/-- Embedding of `lSemihostGetFLen`: SYS_FLEN with block `{ (uint32_t)lFile }`; result
cast to int32. -/
def lSemihostGetFLen (host : Host) (lFile : Int) : Int × List SemiCall :=
  let aulArgs := [toUInt32sh lFile]
  let r := ullSemihostReqOp host SYS_FLEN aulArgs
  (toInt32 r.1, r.2)

/-- Embedding of `bSemihostIsTTY`: SYS_ISTTY with block `{ (uint32_t)lFile }`; true iff
the low 32 bits of the raw result are exactly 1. -/
def bSemihostIsTTY (host : Host) (lFile : Int) : Bool × List SemiCall :=
  let aulArgs := [toUInt32sh lFile]
  let r := ullSemihostReqOp host SYS_ISTTY aulArgs
  (r.1 % 2^32 == 1, r.2)

/-- Embedding of `lSemihostGetErrno`: SYS_ERRNO with `ulArg = 0` (no block); result cast
to int32. -/
def lSemihostGetErrno (host : Host) : Int × List SemiCall :=
  let r := ullSemihostReqOp host SYS_ERRNO []
  (toInt32 r.1, r.2)

/-- Embedding of `lSemihostRemove`: SYS_REMOVE with block
`{ (uint32_t)pszPath, (uint32_t)strlen(pszPath) }`; result cast to int32. -/
def lSemihostRemove (host : Host) (pszPath : CStr) : Int × List SemiCall :=
  let aulArgs := [pszPath.addr % 2^32, pszPath.len % 2^32]
  let r := ullSemihostReqOp host SYS_REMOVE aulArgs
  (toInt32 r.1, r.2)

/-- Embedding of `lSemihostRename`: SYS_RENAME with block
`{ from, strlen(from), to, strlen(to) }`; result cast to int32. -/
def lSemihostRename (host : Host) (pszFrom pszTo : CStr) :
    Int × List SemiCall :=
  let aulArgs := [pszFrom.addr % 2^32, pszFrom.len % 2^32,
                  pszTo.addr % 2^32, pszTo.len % 2^32]
  let r := ullSemihostReqOp host SYS_RENAME aulArgs
  (toInt32 r.1, r.2)

/-- Embedding of `bSemihostGetTmpnam`: SYS_TMPNAM with block
`{ (uint32_t)pszBuf, (uint32_t)ucId, ulSize }` (`ucId` is a `uint8_t`);
success iff the low 32 bits of the raw result are 0. -/
def bSemihostGetTmpnam (host : Host) (pszBuf ucId ulSize : Nat) :
    Bool × List SemiCall :=
  let aulArgs := [pszBuf % 2^32, ucId % 2^8, ulSize % 2^32]
  let r := ullSemihostReqOp host SYS_TMPNAM aulArgs
  (r.1 % 2^32 == 0, r.2)

/-- Embedding of `bSemihostIsError`: SYS_ISERROR with block `{ (uint32_t)lStatus }`;
true iff the low 32 bits of the raw result are nonzero. -/
def bSemihostIsError (host : Host) (lStatus : Int) : Bool × List SemiCall :=
  let aulArgs := [toUInt32sh lStatus]
  let r := ullSemihostReqOp host SYS_ISERROR aulArgs
  (r.1 % 2^32 != 0, r.2)

/-- Embedding of `ulSemihostGetClock`: SYS_CLOCK with `ulArg = 0`; low 32 bits of the
raw result. -/
def ulSemihostGetClock (host : Host) : Nat × List SemiCall :=
  let r := ullSemihostReqOp host SYS_CLOCK []
  (r.1 % 2^32, r.2)

/-- Embedding of `ulSemihostGetTime`: SYS_TIME with `ulArg = 0`; low 32 bits of the raw
result. -/
def ulSemihostGetTime (host : Host) : Nat × List SemiCall :=
  let r := ullSemihostReqOp host SYS_TIME []
  (r.1 % 2^32, r.2)

/-- Embedding of `bSemihostGetElapsed`: SYS_ELAPSED with block `{ (uint32_t)pullElapsed }`;
success iff the low 32 bits of the raw result are 0. -/
def bSemihostGetElapsed (host : Host) (pullElapsed : Nat) :
    Bool × List SemiCall :=
  let aulArgs := [pullElapsed % 2^32]
  let r := ullSemihostReqOp host SYS_ELAPSED aulArgs
  (r.1 % 2^32 == 0, r.2)

/-- Embedding of `ulSemihostGetTickFreq`: SYS_TICKFREQ with `ulArg = 0`; low 32 bits of
the raw result. -/
def ulSemihostGetTickFreq (host : Host) : Nat × List SemiCall :=
  let r := ullSemihostReqOp host SYS_TICKFREQ []
  (r.1 % 2^32, r.2)

/-- Embedding of `bSemihostGetHeapInfo`: SYS_HEAPINFO with block `{ (uint32_t)psInfo }`;
the raw result is discarded, the record is filled in place by the host
(`host.heapInfo`), and the returned flag is the conjunction of the four
non-NULL checks on the filled record. -/
def bSemihostGetHeapInfo (host : Host) (psInfo : Nat) :
    Bool × List SemiCall :=
  let aulArgs := [psInfo % 2^32]
  let r := ullSemihostReqOp host SYS_HEAPINFO aulArgs
  let filled := host.heapInfo
  ((filled.pHeapBase != 0 && filled.pHeapLimit != 0 &&
    filled.pStackBase != 0 && filled.pStackLimit != 0), r.2)

/-!
Coverage export pipeline (`coverage.c`).

The gcov runtime (`__gcov_info_to_gcda`, `__gcov_filename_to_gcfn`,
declared in `<gcov.h>`, owned by the compiler runtime) is external to the
repository and is modelled at its documented interface boundary: one
coverage record is abstracted by the chunks its serialization emits
through the byte-sink callback — `fnameChunks` for the filename pass
(emitted by `__gcov_filename_to_gcfn`) and `dataChunks` for the data pass
(emitted by `__gcov_info_to_gcda` after the single filename-callback
invocation).  A chunk is the `(pData, uLength)` pair handed to the sink.
-/

/-- A byte chunk handed to a dump callback: source address and length. -/
structure Chunk where
  pData : Nat
  uLength : Nat
deriving DecidableEq, Repr

/-- One coverage record (`struct gcov_info`), abstracted by the chunks its
two serialization passes emit. -/
structure gcov_info where
  fnameChunks : List Chunk
  dataChunks : List Chunk
deriving DecidableEq, Repr

/-- Embedding of `vDumpCb`: forwards one chunk to `lSemihostWrite(*(int32_t*)pArg,
pData, uLength)`; the write's return value is discarded (only the trace
remains). -/
def vDumpCb (host : Host) (c : Chunk) (pArg : Int) : List SemiCall :=
  (lSemihostWrite host pArg c.pData c.uLength).2

/-- External gcov runtime `__gcov_filename_to_gcfn`: emits the gcfn
filename encoding through the dump callback, one invocation per chunk, in
order. -/
def gcovFilenameToGcfn (fnameChunks : List Chunk)
    (dump_fn : Chunk → Int → List SemiCall) (arg : Int) : List SemiCall :=
  (fnameChunks.map (fun c => dump_fn c arg)).flatten

/-- Embedding of `vFilenameCb`: serialises the record's filename through
`__gcov_filename_to_gcfn` with `vDumpCb` as the sink. -/
def vFilenameCb (host : Host) (fnameChunks : List Chunk) (pArg : Int) :
    List SemiCall :=
  gcovFilenameToGcfn fnameChunks (vDumpCb host) pArg

/-- Embedding of `pAllocateCb`: allocator callback handed to the gcov runtime; always
reports "no buffer available" (NULL). -/
def pAllocateCb (_uSize : Nat) (_pArg : Int) : Option Nat :=
  none

/-- External gcov runtime `__gcov_info_to_gcda`: invokes the filename
callback once with the record's filename, then the dump callback once per
data chunk, in order.  The allocator callback only influences internal
buffering, never the emitted chunk sequence. -/
def gcovInfoToGcda (info : gcov_info)
    (filename_fn : List Chunk → Int → List SemiCall)
    (dump_fn : Chunk → Int → List SemiCall)
    (_allocate_fn : Nat → Int → Option Nat) (arg : Int) : List SemiCall :=
  filename_fn info.fnameChunks arg ++
    (info.dataChunks.map (fun c => dump_fn c arg)).flatten

/-- Embedding of `Coverage_vDump`: open the host file for binary write (mode 5 = "wb"),
run both serialization passes of every registry record against the single
handle, then close the handle.  The registry between `__gcov_info_start`
and `__gcov_info_end` is the list argument; the result is the transport
trace. -/
def Coverage_vDump (host : Host) (registry : List gcov_info)
    (pszFilename : CStr) : List SemiCall :=
  let r := lSemihostOpen host pszFilename 5
  let lFile : Int := r.1
  r.2 ++
    (registry.map (fun pIt =>
      gcovInfoToGcda pIt (vFilenameCb host) (vDumpCb host) pAllocateCb
        lFile)).flatten ++
    (bSemihostClose host lFile).2

/-!
Spec-side descriptions of the dump trace, used to state the properties.
-/

/-- The argument block the dump's open call carries. -/
def openArgsOf (pszFilename : CStr) : List Nat :=
  [pszFilename.addr % 2^32, 5 % 2^32, pszFilename.len % 2^32]

/-- The file handle the dump obtains from the host's reply to its open
request. -/
def dumpHandle (host : Host) (pszFilename : CStr) : Int :=
  toInt32 (host.resp SYS_OPEN (openArgsOf pszFilename) % 2^64)

/-- The write request emitted for one chunk against handle `h`. -/
def writeCall (h : Int) (c : Chunk) : SemiCall :=
  ⟨SYS_WRITE, [toUInt32sh h, c.pData % 2^32, c.uLength % 2^32]⟩

/-- The write requests of one record: all filename-pass chunks, then all
data-pass chunks, each in callback-invocation order. -/
def recordCalls (h : Int) (info : gcov_info) : List SemiCall :=
  info.fnameChunks.map (writeCall h) ++ info.dataChunks.map (writeCall h)

/-- Number of requests with command `c` in a trace. -/
def countCmd (c : Nat) (tr : List SemiCall) : Nat :=
  tr.countP (fun s => s.cmd == c)

/-- Total number of chunks both passes of a registry emit. -/
def totalChunks (registry : List gcov_info) : Nat :=
  (registry.map (fun i => i.fnameChunks.length + i.dataChunks.length)).sum

/-!
Helper lemmas about the dump trace.
-/

theorem flatten_map_single {α β : Type} (f : α → β) (l : List α) :
    (l.map (fun c => [f c])).flatten = l.map f := by
  induction l with
  | nil => rfl
  | cons a t ih => simp [ih]

theorem gcovInfoToGcda_record (host : Host) (info : gcov_info) (h : Int) :
    gcovInfoToGcda info (vFilenameCb host) (vDumpCb host) pAllocateCb h =
      recordCalls h info := by
  unfold gcovInfoToGcda vFilenameCb gcovFilenameToGcfn recordCalls
  have hdump : ∀ c : Chunk, vDumpCb host c h = [writeCall h c] := by
    intro c
    rfl
  simp only [hdump, flatten_map_single]

/-- The dump trace, in closed form: one open request, then for each record
in registry order its filename-pass writes followed by its data-pass
writes, then one close request, all against the handle decoded from the
host's open reply. -/
theorem coverage_vDump_trace (host : Host) (registry : List gcov_info)
    (pszFilename : CStr) :
    Coverage_vDump host registry pszFilename =
      ⟨SYS_OPEN, openArgsOf pszFilename⟩ ::
        ((registry.map (recordCalls (dumpHandle host pszFilename))).flatten
          ++ [⟨SYS_CLOSE, [toUInt32sh (dumpHandle host pszFilename)]⟩]) := by
  unfold Coverage_vDump lSemihostOpen bSemihostClose ullSemihostReqOp
    dumpHandle openArgsOf
  simp only [gcovInfoToGcda_record]
  rfl

theorem countCmd_writeCalls (c : Nat) (h : Int) (l : List Chunk) :
    countCmd c (l.map (writeCall h)) = if SYS_WRITE = c then l.length else 0 := by
  induction l with
  | nil => simp [countCmd]
  | cons a t ih =>
    simp only [countCmd, List.map_cons, List.countP_cons] at ih ⊢
    by_cases hc : SYS_WRITE = c
    · simp [writeCall, hc, ih]
    · simp [writeCall, hc, ih]

theorem countCmd_recordCalls (c : Nat) (h : Int) (info : gcov_info) :
    countCmd c (recordCalls h info) =
      if SYS_WRITE = c then info.fnameChunks.length + info.dataChunks.length
      else 0 := by
  unfold recordCalls countCmd
  rw [List.countP_append]
  have h1 := countCmd_writeCalls c h info.fnameChunks
  have h2 := countCmd_writeCalls c h info.dataChunks
  unfold countCmd at h1 h2
  rw [h1, h2]
  by_cases hc : SYS_WRITE = c <;> simp [hc]

theorem countCmd_flatten_records (c : Nat) (h : Int)
    (registry : List gcov_info) :
    countCmd c ((registry.map (recordCalls h)).flatten) =
      if SYS_WRITE = c then totalChunks registry else 0 := by
  induction registry with
  | nil => by_cases hc : SYS_WRITE = c <;> simp [countCmd, totalChunks, hc]
  | cons a t ih =>
    rw [List.map_cons, List.flatten_cons]
    unfold countCmd at ih ⊢
    rw [List.countP_append]
    have hrec := countCmd_recordCalls c h a
    unfold countCmd at hrec
    rw [hrec, ih]
    by_cases hc : SYS_WRITE = c <;> simp [hc, totalChunks]

theorem mod64_mod32 (n : Nat) :
    n % 18446744073709551616 % 4294967296 = n % 4294967296 :=
  Nat.mod_mod_of_dvd n (by norm_num)

theorem decode64 (n : Nat) :
    (if n % 2^64 % 2^32 = 0 then ((n % 2^64) >>> 32) % 2^32 else 0) =
      if n % 2^32 = 0 then n % 2^64 / 2^32 else 0 := by
  rw [Nat.mod_mod_of_dvd n (by norm_num : ((2:Nat)^32) ∣ 2^64)]
  rw [Nat.shiftRight_eq_div_pow]
  rw [Nat.mod_eq_of_lt (by omega : n % 2^64 / 2^32 < 2^32)]

theorem toInt32_low_allones {n : Nat} (hn : n % 2^32 = 2^32 - 1) :
    toInt32 n = -1 := by
  unfold toInt32
  rw [hn]
  norm_num

theorem countOpen_dump (host : Host) (registry : List gcov_info) (p : CStr) :
    countCmd SYS_OPEN (Coverage_vDump host registry p) = 1 := by
  rw [coverage_vDump_trace]
  unfold countCmd
  rw [List.countP_cons, List.countP_append]
  have h := countCmd_flatten_records SYS_OPEN (dumpHandle host p) registry
  unfold countCmd at h
  rw [h]
  simp [SYS_OPEN, SYS_WRITE, SYS_CLOSE]

theorem countClose_dump (host : Host) (registry : List gcov_info) (p : CStr) :
    countCmd SYS_CLOSE (Coverage_vDump host registry p) = 1 := by
  rw [coverage_vDump_trace]
  unfold countCmd
  rw [List.countP_cons, List.countP_append]
  have h := countCmd_flatten_records SYS_CLOSE (dumpHandle host p) registry
  unfold countCmd at h
  rw [h]
  simp [SYS_OPEN, SYS_WRITE, SYS_CLOSE]

theorem countWrite_dump (host : Host) (registry : List gcov_info) (p : CStr) :
    countCmd SYS_WRITE (Coverage_vDump host registry p) =
      totalChunks registry := by
  rw [coverage_vDump_trace]
  unfold countCmd
  rw [List.countP_cons, List.countP_append]
  have h := countCmd_flatten_records SYS_WRITE (dumpHandle host p) registry
  unfold countCmd at h
  rw [h]
  simp [SYS_OPEN, SYS_WRITE, SYS_CLOSE]

/-!
Concrete hosts, registries and paths used by counterexamples and
witnesses.
-/

/-- A host that replies `2^32` (nonzero, but with low 32 bits zero) to
every request. -/
def hostHigh : Host := ⟨fun _ _ => 2^32, ⟨0, 0, 0, 0⟩⟩

/-- A host whose every reply has low 32 bits all-ones (so an open decodes
to the failure handle -1). -/
def hostFail : Host := ⟨fun _ _ => 2^32 - 1, ⟨0, 0, 0, 0⟩⟩

/-- A host replying 0 to write requests and 3 otherwise. -/
def hostW1 : Host := ⟨fun c _ => if c = SYS_WRITE then 0 else 3, ⟨0, 0, 0, 0⟩⟩

/-- A host replying 17 to write requests and 3 otherwise: same open
replies as `hostW1`, different write remainders. -/
def hostW2 : Host := ⟨fun c _ => if c = SYS_WRITE then 17 else 3, ⟨0, 0, 0, 0⟩⟩

/-- A one-record registry: one filename chunk, two data chunks. -/
def regW : List gcov_info := [⟨[⟨10, 4⟩], [⟨20, 8⟩, ⟨30, 2⟩]⟩]

/-- A concrete output path (address 100, strlen 9). -/
def pathW : CStr := ⟨100, 9⟩

/-!
The claims.
-/

/-- C1: `ulSemihostGetCmdline` succeeds iff the low 32 bits of the 64-bit
raw transport result are 0; on success the returned length is the high 32
bits of the raw result (`raw / 2^32` for a 64-bit value), and when the low
32 bits are nonzero the returned length is 0 whatever the high 32 bits
hold (failure dominates). -/
theorem cmdline_length_decode (host : Host) (pBuf ulSize : Nat) :
    (ulSemihostGetCmdline host pBuf ulSize).1 =
      if host.resp SYS_GET_CMDLINE [pBuf % 2^32, ulSize % 2^32] % 2^32 = 0
      then host.resp SYS_GET_CMDLINE [pBuf % 2^32, ulSize % 2^32] % 2^64 / 2^32
      else 0 := by
  have h := decode64 (host.resp SYS_GET_CMDLINE [pBuf % 2^32, ulSize % 2^32])
  simpa [ulSemihostGetCmdline, ullSemihostReqOp] using h

/-- C2: one `Coverage_vDump` call over a registry of N records issues
exactly one open request, exactly one close request, and exactly one write
request per chunk emitted by the filename and data passes of all N
records; for the empty registry there are zero writes but still the single
open and the single close. -/
theorem dump_call_counts (host : Host) (registry : List gcov_info)
    (pszFilename : CStr) :
    countCmd SYS_OPEN (Coverage_vDump host registry pszFilename) = 1 ∧
    countCmd SYS_CLOSE (Coverage_vDump host registry pszFilename) = 1 ∧
    countCmd SYS_WRITE (Coverage_vDump host registry pszFilename) =
      totalChunks registry ∧
    countCmd SYS_WRITE (Coverage_vDump host [] pszFilename) = 0 ∧
    countCmd SYS_OPEN (Coverage_vDump host [] pszFilename) = 1 ∧
    countCmd SYS_CLOSE (Coverage_vDump host [] pszFilename) = 1 :=
  ⟨countOpen_dump host registry pszFilename,
   countClose_dump host registry pszFilename,
   countWrite_dump host registry pszFilename,
   by simpa [totalChunks] using countWrite_dump host [] pszFilename,
   countOpen_dump host [] pszFilename,
   countClose_dump host [] pszFilename⟩

/-- C3: the dump trace is, in order: the single open request, then for
each record in registry order all of its filename-pass write requests
followed by all of its data-pass write requests (each pass in
callback-invocation order), then the single close request — so chunks of
two records are never interleaved and the two passes of one record are
never reordered. -/
theorem dump_trace_ordered (host : Host) (registry : List gcov_info)
    (pszFilename : CStr) :
    Coverage_vDump host registry pszFilename =
      ⟨SYS_OPEN, openArgsOf pszFilename⟩ ::
        ((registry.map (recordCalls (dumpHandle host pszFilename))).flatten
          ++ [⟨SYS_CLOSE, [toUInt32sh (dumpHandle host pszFilename)]⟩]) :=
  coverage_vDump_trace host registry pszFilename

/-- C4: when the open at the start of `Coverage_vDump` fails (low 32 bits
of the reply all-ones, decoding to the handle -1), the pipeline does not
abort: it still emits every record's per-chunk write requests against the
invalid handle -1 and still issues exactly one close request carrying that
invalid handle. -/
theorem dump_open_fail_no_abort (host : Host) (registry : List gcov_info)
    (pszFilename : CStr)
    (hfail : host.resp SYS_OPEN (openArgsOf pszFilename) % 2^32 = 2^32 - 1) :
    Coverage_vDump host registry pszFilename =
      ⟨SYS_OPEN, openArgsOf pszFilename⟩ ::
        ((registry.map (recordCalls (-1))).flatten ++
          [⟨SYS_CLOSE, [toUInt32sh (-1)]⟩]) ∧
    countCmd SYS_WRITE (Coverage_vDump host registry pszFilename) =
      totalChunks registry ∧
    countCmd SYS_CLOSE (Coverage_vDump host registry pszFilename) = 1 := by
  have hh : dumpHandle host pszFilename = -1 := by
    unfold dumpHandle
    refine toInt32_low_allones ?_
    rw [Nat.mod_mod_of_dvd _ (by norm_num : ((2:Nat)^32) ∣ 2^64)]
    exact hfail
  refine ⟨?_, countWrite_dump host registry pszFilename,
    countClose_dump host registry pszFilename⟩
  rw [coverage_vDump_trace, hh]

/-- C4 witness: a host whose open reply decodes to -1, with a one-record
registry. -/
theorem dump_open_fail_no_abort_witness :
    hostFail.resp SYS_OPEN (openArgsOf pathW) % 2^32 = 2^32 - 1 ∧
    (Coverage_vDump hostFail regW pathW =
      ⟨SYS_OPEN, openArgsOf pathW⟩ ::
        ((regW.map (recordCalls (-1))).flatten ++
          [⟨SYS_CLOSE, [toUInt32sh (-1)]⟩]) ∧
     countCmd SYS_WRITE (Coverage_vDump hostFail regW pathW) =
       totalChunks regW ∧
     countCmd SYS_CLOSE (Coverage_vDump hostFail regW pathW) = 1) :=
  ⟨by decide, dump_open_fail_no_abort hostFail regW pathW (by decide)⟩

/-- C5: `bSemihostGetHeapInfo` returns true iff all four fields of the
record the host filled are non-NULL; the right-hand side mentions only the
filled record, so the returned flag does not depend on the raw transport
result at all. -/
theorem heapinfo_valid_iff_all_nonnull (host : Host) (psInfo : Nat) :
    (bSemihostGetHeapInfo host psInfo).1 = true ↔
      (host.heapInfo.pHeapBase ≠ 0 ∧ host.heapInfo.pHeapLimit ≠ 0 ∧
       host.heapInfo.pStackBase ≠ 0 ∧ host.heapInfo.pStackLimit ≠ 0) := by
  simp [bSemihostGetHeapInfo, ullSemihostReqOp, and_assoc]

/-- C6 counterexample: the boolean operations test only the low 32 bits of
the 64-bit raw transport result, so a nonzero raw result (here `2^32`,
whose low 32 bits are zero) makes `bSemihostClose` return true — the claim
that any nonzero raw result maps to false fails. -/
theorem close_true_on_nonzero_raw :
    (bSemihostClose hostHigh 0).1 = true ∧
      hostHigh.resp SYS_CLOSE [toUInt32sh 0] % 2^64 ≠ 0 := by
  refine ⟨by decide, by decide⟩

/-- C6 amended: for the boolean-result operations, low 32 bits of the raw
result equal to 0 map to true and any value with nonzero low 32 bits to
false (close, seek, temp-name, elapsed-ticks); is-tty is true iff the low
32 bits equal exactly 1 and is-error is true iff the low 32 bits are
nonzero. -/
theorem bool_results_decode_low32 (host : Host) (lFile lStatus : Int)
    (ulPos pszBuf ucId ulSize pullElapsed : Nat) :
    ((bSemihostClose host lFile).1 = true ↔
        host.resp SYS_CLOSE [toUInt32sh lFile] % 2^32 = 0) ∧
    ((bSemihostSeek host lFile ulPos).1 = true ↔
        host.resp SYS_SEEK [toUInt32sh lFile, ulPos % 2^32] % 2^32 = 0) ∧
    ((bSemihostGetTmpnam host pszBuf ucId ulSize).1 = true ↔
        host.resp SYS_TMPNAM [pszBuf % 2^32, ucId % 2^8, ulSize % 2^32]
          % 2^32 = 0) ∧
    ((bSemihostGetElapsed host pullElapsed).1 = true ↔
        host.resp SYS_ELAPSED [pullElapsed % 2^32] % 2^32 = 0) ∧
    ((bSemihostIsTTY host lFile).1 = true ↔
        host.resp SYS_ISTTY [toUInt32sh lFile] % 2^32 = 1) ∧
    ((bSemihostIsError host lStatus).1 = true ↔
        host.resp SYS_ISERROR [toUInt32sh lStatus] % 2^32 ≠ 0) := by
  refine ⟨?_, ?_, ?_, ?_, ?_, ?_⟩ <;>
    simp [bSemihostClose, bSemihostSeek, bSemihostGetTmpnam,
      bSemihostGetElapsed, bSemihostIsTTY, bSemihostIsError,
      ullSemihostReqOp, mod64_mod32]

/-- C7: `Coverage_vDump` never examines the write remainders (or the close
result): whenever two hosts give the same reply to the dump's open
request, the two dump traces are the same request sequence, whatever
remainder each write reports — no chunk is retried or dropped. -/
theorem dump_ignores_write_results (h1 h2 : Host)
    (registry : List gcov_info) (pszFilename : CStr)
    (hopen : h1.resp SYS_OPEN (openArgsOf pszFilename) =
             h2.resp SYS_OPEN (openArgsOf pszFilename)) :
    Coverage_vDump h1 registry pszFilename =
      Coverage_vDump h2 registry pszFilename := by
  rw [coverage_vDump_trace, coverage_vDump_trace]
  unfold dumpHandle
  rw [hopen]

/-- C7 witness: two hosts agreeing on open replies but reporting
remainders 0 resp. 17 for every write produce the same dump trace. -/
theorem dump_ignores_write_results_witness :
    hostW1.resp SYS_OPEN (openArgsOf pathW) =
      hostW2.resp SYS_OPEN (openArgsOf pathW) ∧
    Coverage_vDump hostW1 regW pathW = Coverage_vDump hostW2 regW pathW :=
  ⟨by decide, dump_ignores_write_results hostW1 hostW2 regW pathW (by decide)⟩

/-- C8: the allocator callback handed to the coverage runtime returns NULL
("no buffer available") for every requested size and every argument. -/
theorem allocator_always_null (uSize : Nat) (pArg : Int) :
    pAllocateCb uSize pArg = none :=
  rfl

/-- C9 counterexample: the standard-stream handle constants are 0, 1 and
2 — none of them is negative, so the claim that they are negative values
fails. -/
theorem stdstream_handles_not_negative :
    SEMIHOST_STDIN = 0 ∧ SEMIHOST_STDOUT = 1 ∧ SEMIHOST_STDERR = 2 ∧
    ¬(SEMIHOST_STDIN < 0) ∧ ¬(SEMIHOST_STDOUT < 0) ∧
    ¬(SEMIHOST_STDERR < 0) := by
  decide

/-- C9 amended: the well-known file-handle constants denoting the standard
streams are the small set of reserved non-negative values 0 (input), 1
(output) and 2 (error), pairwise distinct, each meant to be usable without
a prior open call. -/
theorem stdstream_handles_reserved :
    SEMIHOST_STDIN = 0 ∧ SEMIHOST_STDOUT = 1 ∧ SEMIHOST_STDERR = 2 ∧
    SEMIHOST_STDIN ≠ SEMIHOST_STDOUT ∧ SEMIHOST_STDIN ≠ SEMIHOST_STDERR ∧
    SEMIHOST_STDOUT ≠ SEMIHOST_STDERR := by
  decide

/-- C10: every Host I/O Service Layer operation issues exactly one
transport request per invocation — its trace is one `SemiCall` — and that
single request already carries the operation's complete argument block. -/
theorem service_layer_single_request (host : Host)
    (cChar pszStr pBuf ulSize ulPos pszBuf ucId ulSizeT pullElapsed
      pData ulLen pBufR ulLenR psInfo ulMode : Nat)
    (lFile lStatus : Int) (pszCmd pszPath pszFrom pszTo : CStr) :
    (vSemihostWriteC host cChar).2 = [⟨SYS_WRITEC, [cChar % 2^8]⟩] ∧
    (vSemihostWrite0 host pszStr).2 = [⟨SYS_WRITE0, [pszStr % 2^32]⟩] ∧
    (cSemihostReadC host).2 = [⟨SYS_READC, []⟩] ∧
    (ulSemihostGetCmdline host pBuf ulSize).2 =
      [⟨SYS_GET_CMDLINE, [pBuf % 2^32, ulSize % 2^32]⟩] ∧
    (lSemihostSystem host pszCmd).2 =
      [⟨SYS_SYSTEM, [pszCmd.addr % 2^32, pszCmd.len % 2^32]⟩] ∧
    (lSemihostOpen host pszPath ulMode).2 =
      [⟨SYS_OPEN, [pszPath.addr % 2^32, ulMode % 2^32, pszPath.len % 2^32]⟩] ∧
    (bSemihostClose host lFile).2 = [⟨SYS_CLOSE, [toUInt32sh lFile]⟩] ∧
    (lSemihostWrite host lFile pData ulLen).2 =
      [⟨SYS_WRITE, [toUInt32sh lFile, pData % 2^32, ulLen % 2^32]⟩] ∧
    (lSemihostRead host lFile pBufR ulLenR).2 =
      [⟨SYS_READ, [toUInt32sh lFile, pBufR % 2^32, ulLenR % 2^32]⟩] ∧
    (bSemihostSeek host lFile ulPos).2 =
      [⟨SYS_SEEK, [toUInt32sh lFile, ulPos % 2^32]⟩] ∧
    (lSemihostGetFLen host lFile).2 = [⟨SYS_FLEN, [toUInt32sh lFile]⟩] ∧
    (bSemihostIsTTY host lFile).2 = [⟨SYS_ISTTY, [toUInt32sh lFile]⟩] ∧
    (lSemihostGetErrno host).2 = [⟨SYS_ERRNO, []⟩] ∧
    (lSemihostRemove host pszPath).2 =
      [⟨SYS_REMOVE, [pszPath.addr % 2^32, pszPath.len % 2^32]⟩] ∧
    (lSemihostRename host pszFrom pszTo).2 =
      [⟨SYS_RENAME, [pszFrom.addr % 2^32, pszFrom.len % 2^32,
        pszTo.addr % 2^32, pszTo.len % 2^32]⟩] ∧
    (bSemihostGetTmpnam host pszBuf ucId ulSizeT).2 =
      [⟨SYS_TMPNAM, [pszBuf % 2^32, ucId % 2^8, ulSizeT % 2^32]⟩] ∧
    (bSemihostIsError host lStatus).2 =
      [⟨SYS_ISERROR, [toUInt32sh lStatus]⟩] ∧
    (ulSemihostGetClock host).2 = [⟨SYS_CLOCK, []⟩] ∧
    (ulSemihostGetTime host).2 = [⟨SYS_TIME, []⟩] ∧
    (bSemihostGetElapsed host pullElapsed).2 =
      [⟨SYS_ELAPSED, [pullElapsed % 2^32]⟩] ∧
    (ulSemihostGetTickFreq host).2 = [⟨SYS_TICKFREQ, []⟩] ∧
    (bSemihostGetHeapInfo host psInfo).2 = [⟨SYS_HEAPINFO, [psInfo % 2^32]⟩] :=
  ⟨rfl, rfl, rfl, rfl, rfl, rfl, rfl, rfl, rfl, rfl, rfl, rfl, rfl, rfl,
   rfl, rfl, rfl, rfl, rfl, rfl, rfl, rfl⟩
